import Mathlib

/-!
Shallow embedding of the `job-matcher-backend` HTTP service (`src/server.js`).

The service is an Express app with three routes: a health check, a resume
analysis endpoint and a job matching endpoint.  Its own logic is input
validation, file-type gating, text extraction, prompt string assembly and
JSON-parse-or-surface-raw-text response handling; the LLM provider, the
PDF/DOCX extraction libraries, the multipart middleware and the JSON body
parser are external collaborators and are modelled as parameters or by their
documented platform semantics (each such model carries a comment saying so).

JavaScript strings are modelled as Lean `String`, byte buffers as `List Nat`
(one entry per byte), and untyped request-body values as the `JsValue`
inductive.  All definitions are executable.
-/

namespace JobMatcher

/-! ### JavaScript string primitives used by `server.js` -/

/-- The WhiteSpace / LineTerminator character set of `String.prototype.trim`
(ECMA-262): tab, LF, VT, FF, CR, space, NBSP, BOM, the Unicode space
separators, and the line/paragraph separators. -/
def jsWhitespaceChar (c : Char) : Bool :=
  c = ' ' || c = '\t' || c = '\n' || c = '\r' ||
  c.toNat = 0x0B || c.toNat = 0x0C || c.toNat = 0xA0 || c.toNat = 0xFEFF ||
  c.toNat = 0x1680 || (0x2000 ≤ c.toNat && c.toNat ≤ 0x200A) ||
  c.toNat = 0x202F || c.toNat = 0x205F || c.toNat = 0x3000 ||
  c.toNat = 0x2028 || c.toNat = 0x2029

/-- JavaScript `String.prototype.trim`: strip leading and trailing
whitespace. -/
def jsTrim (s : String) : String :=
  String.mk (((s.data.dropWhile jsWhitespaceChar).reverse.dropWhile
    jsWhitespaceChar).reverse)

/-- JavaScript `String.prototype.toLowerCase` restricted to the characters the
server ever feeds it (file names and extensions); `Char.toLower` lowercases
ASCII letters and leaves everything else unchanged. -/
def jsToLower (s : String) : String :=
  String.mk (s.data.map Char.toLower)

/-- Index of the last occurrence of `c`, if any (helper for `lastIndexOf`). -/
def lastIdxOf (c : Char) : List Char → Option Nat
  | [] => none
  | x :: xs =>
    match lastIdxOf c xs with
    | some i => some (i + 1)
    | none => if x = c then some 0 else none

/-- JavaScript `String.prototype.lastIndexOf` for a single character:
the index of its last occurrence, or `-1` when absent. -/
def jsLastIndexOf (s : String) (c : Char) : Int :=
  match lastIdxOf c s.data with
  | some i => (i : Int)
  | none => -1

/-- JavaScript `String.prototype.slice(start)` with a possibly negative start:
a negative index counts back from the end, clamped at `0`. -/
def jsSliceFrom (s : String) (start : Int) : String :=
  let n := s.data.length
  let b : Nat := if start < 0 then (n : Int) + start |>.toNat else start.toNat
  String.mk (s.data.drop b)

/-- `file.originalname.toLowerCase().slice(file.originalname.lastIndexOf('.'))`
— the extension computation shared by the multer `fileFilter` and
`extractTextFromFile` (`src/server.js` lines 29 and 114). -/
def fileExtOf (originalname : String) : String :=
  jsSliceFrom (jsToLower originalname) (jsLastIndexOf originalname '.')

/-! ### Upload gate (multer configuration, `src/server.js` lines 21–36) -/

/-- The extension allow-list of the multer `fileFilter`. -/
def allowedTypes : List String := [".pdf", ".docx", ".txt"]

/-- `limits.fileSize`: 10 MiB. -/
def maxFileSize : Nat := 10 * 1024 * 1024

/-- The multer `fileFilter` decision: accept exactly when the computed
extension is in the allow-list. -/
def multerAccepts (originalname : String) : Bool :=
  allowedTypes.contains (fileExtOf originalname)

/-- The message of the `Error` the `fileFilter` passes to its callback on an
extension outside the allow-list. -/
def invalidFileTypeMsg : String :=
  "Invalid file type. Only PDF, DOCX, and TXT files are allowed."

/-- An uploaded multipart file as multer presents it to the handler:
original client file name plus the in-memory byte buffer. -/
structure RawUpload where
  originalname : String
  buffer : List Nat
deriving DecidableEq, Repr

/-! ### Node `Buffer.prototype.toString('utf-8')`

Modelled platform semantics: V8 decodes with the WHATWG UTF-8 decoder, which
never throws — every maximal invalid subpart (truncated sequence, stray
continuation byte, overlong form, surrogate or out-of-range code point) is
replaced by one U+FFFD replacement character and decoding continues.  A
strict validity check `validUtf8` is defined alongside with the same case
structure. -/

/-- The U+FFFD replacement character. -/
def repl : Char := Char.ofNat 0xFFFD

/-- A UTF-8 continuation byte. -/
def isCont (b : Nat) : Bool := 0x80 ≤ b && b ≤ 0xBF

/-- Permitted second byte of a three-byte sequence with lead `b`
(tightened ranges for `E0` exclude overlong forms, for `ED` surrogates). -/
def cont3ok (b b2 : Nat) : Bool :=
  if b = 0xE0 then 0xA0 ≤ b2 && b2 ≤ 0xBF
  else if b = 0xED then 0x80 ≤ b2 && b2 ≤ 0x9F
  else isCont b2

/-- Permitted second byte of a four-byte sequence with lead `b`
(tightened ranges for `F0` exclude overlong forms, for `F4` code points
above U+10FFFF). -/
def cont4ok (b b2 : Nat) : Bool :=
  if b = 0xF0 then 0x90 ≤ b2 && b2 ≤ 0xBF
  else if b = 0xF4 then 0x80 ≤ b2 && b2 ≤ 0x8F
  else isCont b2

/-- The lenient WHATWG UTF-8 decode of a byte buffer: each maximal invalid
subpart (stray continuation, bad lead, truncated or malformed sequence)
contributes one U+FFFD and decoding resumes at the offending byte; a
truncated sequence at end of input contributes one U+FFFD. -/
def utf8Dec : List Nat → List Char
  | [] => []
  | b :: bs =>
    if b ≤ 0x7F then Char.ofNat b :: utf8Dec bs
    else if b < 0xC2 then repl :: utf8Dec bs
    else if b ≤ 0xDF then
      match bs with
      | [] => [repl]
      | b2 :: rest =>
        if isCont b2 then
          Char.ofNat ((b - 0xC0) * 0x40 + (b2 - 0x80)) :: utf8Dec rest
        else repl :: utf8Dec (b2 :: rest)
    else if b ≤ 0xEF then
      match bs with
      | [] => [repl]
      | b2 :: rest =>
        if cont3ok b b2 then
          match rest with
          | [] => [repl]
          | b3 :: rest2 =>
            if isCont b3 then
              Char.ofNat ((b - 0xE0) * 0x1000 + (b2 - 0x80) * 0x40 + (b3 - 0x80)) ::
                utf8Dec rest2
            else repl :: utf8Dec (b3 :: rest2)
        else repl :: utf8Dec (b2 :: rest)
    else if b ≤ 0xF4 then
      match bs with
      | [] => [repl]
      | b2 :: rest =>
        if cont4ok b b2 then
          match rest with
          | [] => [repl]
          | b3 :: rest2 =>
            if isCont b3 then
              match rest2 with
              | [] => [repl]
              | b4 :: rest3 =>
                if isCont b4 then
                  Char.ofNat ((b - 0xF0) * 0x40000 + (b2 - 0x80) * 0x1000 +
                    (b3 - 0x80) * 0x40 + (b4 - 0x80)) :: utf8Dec rest3
                else repl :: utf8Dec (b4 :: rest3)
            else repl :: utf8Dec (b3 :: rest2)
        else repl :: utf8Dec (b2 :: rest)
    else repl :: utf8Dec bs

/-- Strict UTF-8 validity of a byte buffer: mirrors `utf8Dec` case by case
and is `false` exactly where the decoder substitutes U+FFFD. -/
def validUtf8 : List Nat → Bool
  | [] => true
  | b :: bs =>
    if b ≤ 0x7F then validUtf8 bs
    else if b < 0xC2 then false
    else if b ≤ 0xDF then
      match bs with
      | [] => false
      | b2 :: rest => if isCont b2 then validUtf8 rest else false
    else if b ≤ 0xEF then
      match bs with
      | [] => false
      | b2 :: rest =>
        if cont3ok b b2 then
          match rest with
          | [] => false
          | b3 :: rest2 => if isCont b3 then validUtf8 rest2 else false
        else false
    else if b ≤ 0xF4 then
      match bs with
      | [] => false
      | b2 :: rest =>
        if cont4ok b b2 then
          match rest with
          | [] => false
          | b3 :: rest2 =>
            if isCont b3 then
              match rest2 with
              | [] => false
              | b4 :: rest3 => if isCont b4 then validUtf8 rest3 else false
            else false
        else false
    else false

/-- `buffer.toString('utf-8')` (total: never throws). -/
def bufferToStringUtf8 (bs : List Nat) : String :=
  String.mk (utf8Dec bs)

/-! ### File text extraction (`src/server.js` lines 75–126)

The PDF and DOCX libraries (`pdf-parse`, `mammoth`) are external collaborators
and enter as parameters; their exceptions surface as `Except.error`. -/

/-- `extractTextFromPDF`: delegate to the PDF library and re-wrap any
failure. -/
def extractTextFromPDF (pdfLib : List Nat → Except String String)
    (buffer : List Nat) : Except String String :=
  match pdfLib buffer with
  | .ok t => .ok t
  | .error m => .error ("Failed to extract text from PDF: " ++ m)

/-- `extractTextFromDOCX`: delegate to the DOCX library and re-wrap any
failure. -/
def extractTextFromDOCX (docxLib : List Nat → Except String String)
    (buffer : List Nat) : Except String String :=
  match docxLib buffer with
  | .ok t => .ok t
  | .error m => .error ("Failed to extract text from DOCX: " ++ m)

/-- `extractTextFromTXT`: `buffer.toString('utf-8')` inside a
`try`/`catch` whose catch branch (re-wrapping as
`Failed to extract text from TXT: …`) is unreachable, because
`Buffer.prototype.toString` with the `utf-8` encoding is total. -/
def extractTextFromTXT (buffer : List Nat) : Except String String :=
  .ok (bufferToStringUtf8 buffer)

/-- `extractTextFromFile`: recompute the extension and dispatch. -/
def extractTextFromFile (pdfLib docxLib : List Nat → Except String String)
    (file : RawUpload) : Except String String :=
  let fileExt := fileExtOf file.originalname
  if fileExt = ".pdf" then extractTextFromPDF pdfLib file.buffer
  else if fileExt = ".docx" then extractTextFromDOCX docxLib file.buffer
  else if fileExt = ".txt" then extractTextFromTXT file.buffer
  else .error ("Unsupported file type: " ++ fileExt)

end JobMatcher

namespace JobMatcher

/-! ### CORS origin policy (`src/server.js` lines 39–66) -/

/-- The character class `[a-zA-Z0-9-]` of the two subdomain regexes. -/
def isSubChar (c : Char) : Bool :=
  let n := c.toNat
  (97 ≤ n && n ≤ 122) || (65 ≤ n && n ≤ 90) || (48 ≤ n && n ≤ 57) || n == 45

/-- The scheme and separator the two regexes anchor on. -/
def httpsScheme : List Char := "https://".data

/-- Matching of `^https:\/\/[a-zA-Z0-9-]+<tail>$` against an origin string,
where `tail` starts with a literal `.` (so the greedy character-class run is
exact): the input must start with `https://`, continue with a non-empty run
of label characters, and end with exactly `tail`. -/
def matchHttpsLabel (tail : List Char) (o : String) : Bool :=
  let cs := o.data
  (cs.take 8 == httpsScheme) &&
    (let rest := cs.drop 8
     !(rest.takeWhile isSubChar).isEmpty &&
       (rest.dropWhile isSubChar == tail))

/-- The static origin allow-list. -/
def corsAllowedOrigins : List String :=
  ["http://localhost:5173",
   "https://lovable.dev",
   "https://fb974799-ea5e-4d7f-b7d5-59fd6e909e7d.lovableproject.com",
   "https://job-matcher-backend-production-4600.up.railway.app"]

/-- `origin.match(/^https:\/\/[a-zA-Z0-9-]+\.lovable\.dev$/)`. -/
def isLovableSubdomain (o : String) : Bool :=
  matchHttpsLabel ".lovable.dev".data o

/-- `origin.match(/^https:\/\/[a-zA-Z0-9-]+\.lovableproject\.com$/)`. -/
def isLovableProject (o : String) : Bool :=
  matchHttpsLabel ".lovableproject.com".data o

/-- The CORS `origin` callback: `none` models a request without an `Origin`
header (always permitted); otherwise permit exactly when the origin is in the
static list or matches one of the two subdomain patterns. -/
def corsOriginAllowed : Option String → Bool
  | none => true
  | some origin =>
    corsAllowedOrigins.contains origin || isLovableSubdomain origin ||
      isLovableProject origin

/-- Spec-side characterisation ("an HTTPS subdomain of `base`"): the origin is
`https://` followed by one non-empty label of characters from `[a-zA-Z0-9-]`,
a dot, and the base domain. -/
def httpsSubdomainOf (base : String) (o : String) : Prop :=
  ∃ label : String, label ≠ "" ∧ label.data.all isSubChar = true ∧
    o = "https://" ++ label ++ "." ++ base

/-! ### `JSON.parse` (used at `src/server.js` lines 232 and 350)

A model of the JSON grammar as accepted by `JSON.parse`: a single value
(object, array, string, number, `true`, `false`, `null`) surrounded by
optional JSON whitespace, with no trailing input.  Parsed numbers keep their
lexeme.  One deviation from JS, irrelevant to the repository (which only
tests parse success): a lone surrogate `\uXXXX` escape decodes to U+FFFD
because Lean characters are Unicode scalar values. -/

inductive Json where
  | nullJ : Json
  | boolJ : Bool → Json
  | numJ : String → Json
  | strJ : String → Json
  | arrJ : List Json → Json
  | objJ : List (String × Json) → Json
deriving Repr

/-- JSON whitespace: space, tab, line feed, carriage return. -/
def jsonWs (c : Char) : Bool :=
  c = ' ' || c = '\t' || c = '\n' || c = '\r'

/-- Skip leading JSON whitespace. -/
def skipWs (cs : List Char) : List Char := cs.dropWhile jsonWs

/-- Value of a hexadecimal digit (by code point: `0`-`9`, `a`-`f`,
`A`-`F`). -/
def hexDigit? (c : Char) : Option Nat :=
  let n := c.toNat
  if 48 ≤ n && n ≤ 57 then some (n - 48)
  else if 97 ≤ n && n ≤ 102 then some (n - 87)
  else if 65 ≤ n && n ≤ 70 then some (n - 55)
  else none

/-- Decode a `\uXXXX` escape: four hex digits. -/
def parse4Hex : List Char → Option (Nat × List Char)
  | h1 :: h2 :: h3 :: h4 :: rest => do
    let v1 ← hexDigit? h1
    let v2 ← hexDigit? h2
    let v3 ← hexDigit? h3
    let v4 ← hexDigit? h4
    some (v1 * 4096 + v2 * 256 + v3 * 16 + v4, rest)
  | _ => none

/-- Body of a JSON string after the opening quote: plain characters above
U+001F, the eight single-character escapes, and `\uXXXX` escapes (surrogate
pairs combined; a lone surrogate becomes U+FFFD). -/
def parseStringChars : Nat → List Char → Option (List Char × List Char)
  | 0, _ => none
  | _ + 1, [] => none
  | fuel + 1, c :: rest =>
    if c = '"' then some ([], rest)
    else if c = '\\' then
      match rest with
      | [] => none
      | e :: rest2 =>
        let simpleEsc : Option Char :=
          if e = '"' then some '"'
          else if e = '\\' then some '\\'
          else if e = '/' then some '/'
          else if e = 'b' then some (Char.ofNat 8)
          else if e = 'f' then some (Char.ofNat 12)
          else if e = 'n' then some '\n'
          else if e = 'r' then some '\r'
          else if e = 't' then some '\t'
          else none
        match simpleEsc with
        | some ch => do
          let (tailChars, rem) ← parseStringChars fuel rest2
          some (ch :: tailChars, rem)
        | none =>
          if e = 'u' then
            match parse4Hex rest2 with
            | none => none
            | some (n, rest3) =>
              if 0xD800 ≤ n && n ≤ 0xDBFF then
                match rest3 with
                | '\\' :: 'u' :: rest4 =>
                  match parse4Hex rest4 with
                  | some (m, rest5) =>
                    if 0xDC00 ≤ m && m ≤ 0xDFFF then do
                      let cp := 0x10000 + (n - 0xD800) * 0x400 + (m - 0xDC00)
                      let (tailChars, rem) ← parseStringChars fuel rest5
                      some (Char.ofNat cp :: tailChars, rem)
                    else do
                      let (tailChars, rem) ← parseStringChars fuel rest3
                      some (repl :: tailChars, rem)
                  | none => do
                    let (tailChars, rem) ← parseStringChars fuel rest3
                    some (repl :: tailChars, rem)
                | _ => do
                  let (tailChars, rem) ← parseStringChars fuel rest3
                  some (repl :: tailChars, rem)
              else if 0xDC00 ≤ n && n ≤ 0xDFFF then do
                let (tailChars, rem) ← parseStringChars fuel rest3
                some (repl :: tailChars, rem)
              else do
                let (tailChars, rem) ← parseStringChars fuel rest3
                some (Char.ofNat n :: tailChars, rem)
          else none
    else if c.toNat < 0x20 then none
    else do
      let (tailChars, rem) ← parseStringChars fuel rest
      some (c :: tailChars, rem)

/-- Parse a JSON string literal starting at its opening quote. -/
def parseJsonStr (cs : List Char) : Option (String × List Char) :=
  match cs with
  | '"' :: rest =>
    match parseStringChars (rest.length + 1) rest with
    | some (chars, rem) => some (String.mk chars, rem)
    | none => none
  | _ => none

/-- A decimal digit, by code point. -/
def isDigit (c : Char) : Bool := 48 ≤ c.toNat && c.toNat ≤ 57

/-- Parse the integer part of a JSON number (`0` or a non-zero digit followed
by digits), returning its characters. -/
def parseIntPart (cs : List Char) : Option (List Char × List Char) :=
  match cs with
  | '0' :: rest => some (['0'], rest)
  | c :: rest =>
    if isDigit c && c ≠ '0' then
      some (c :: rest.takeWhile isDigit, rest.dropWhile isDigit)
    else none
  | [] => none

/-- Parse an optional fraction part (`.` followed by one or more digits). -/
def parseFracPart (cs : List Char) : Option (List Char × List Char) :=
  match cs with
  | '.' :: rest =>
    let ds := rest.takeWhile isDigit
    if ds.isEmpty then none
    else some ('.' :: ds, rest.dropWhile isDigit)
  | _ => some ([], cs)

/-- Parse an optional exponent part (`e`/`E`, optional sign, digits). -/
def parseExpPart (cs : List Char) : Option (List Char × List Char) :=
  match cs with
  | c :: rest =>
    if c = 'e' || c = 'E' then
      let (sign, rest2) :=
        match rest with
        | s :: r2 => if s = '+' || s = '-' then ([s], r2) else ([], rest)
        | [] => ([], rest)
      let ds := rest2.takeWhile isDigit
      if ds.isEmpty then none
      else some (c :: (sign ++ ds), rest2.dropWhile isDigit)
    else some ([], cs)
  | [] => some ([], cs)

/-- Parse a JSON number, returning its lexeme. -/
def parseJsonNum (cs : List Char) : Option (String × List Char) := do
  let (sign, cs1) :=
    match cs with
    | '-' :: rest => (['-'], rest)
    | _ => ([], cs)
  let (ip, cs2) ← parseIntPart cs1
  let (fp, cs3) ← parseFracPart cs2
  let (ep, cs4) ← parseExpPart cs3
  some (String.mk (sign ++ ip ++ fp ++ ep), cs4)

/-- Check that `cs` starts with the literal `lit` and return the rest. -/
def expectLit (lit : List Char) (cs : List Char) : Option (List Char) :=
  if cs.take lit.length == lit then some (cs.drop lit.length) else none

mutual

/-- Recursive-descent JSON value parser; the fuel strictly decreases on every
recursive call, and the top-level entry point supplies fuel proportional to
the input length, which is ample. -/
def parseValue : Nat → List Char → Option (Json × List Char)
  | 0, _ => none
  | fuel + 1, cs =>
    match skipWs cs with
    | [] => none
    | 'n' :: rest => do
      let rem ← expectLit "ull".data rest
      some (.nullJ, rem)
    | 't' :: rest => do
      let rem ← expectLit "rue".data rest
      some (.boolJ true, rem)
    | 'f' :: rest => do
      let rem ← expectLit "alse".data rest
      some (.boolJ false, rem)
    | '"' :: rest => do
      let (s, rem) ← parseJsonStr ('"' :: rest)
      some (.strJ s, rem)
    | '[' :: rest =>
      (match skipWs rest with
       | ']' :: rem => some (.arrJ [], rem)
       | other => do
         let (xs, rem) ← parseElems fuel other
         some (.arrJ xs, rem))
    | '{' :: rest =>
      (match skipWs rest with
       | '}' :: rem => some (.objJ [], rem)
       | other => do
         let (fields, rem) ← parseFields fuel other
         some (.objJ fields, rem))
    | c :: rest =>
      if c = '-' || isDigit c then do
        let (lex, rem) ← parseJsonNum (c :: rest)
        some (.numJ lex, rem)
      else none

/-- Comma-separated array elements, ending at `]`. -/
def parseElems : Nat → List Char → Option (List Json × List Char)
  | 0, _ => none
  | fuel + 1, cs => do
    let (v, rem) ← parseValue fuel cs
    match skipWs rem with
    | ',' :: rest => do
      let (vs, rem2) ← parseElems fuel rest
      some (v :: vs, rem2)
    | ']' :: rest => some ([v], rest)
    | _ => none

/-- Comma-separated object members, ending at `}`. -/
def parseFields : Nat → List Char → Option (List (String × Json) × List Char)
  | 0, _ => none
  | fuel + 1, cs => do
    let (k, rem0) ← parseJsonStr (skipWs cs)
    match skipWs rem0 with
    | ':' :: rest => do
      let (v, rem) ← parseValue fuel rest
      match skipWs rem with
      | ',' :: rest2 => do
        let (fs, rem2) ← parseFields fuel rest2
        some ((k, v) :: fs, rem2)
      | '}' :: rest2 => some ([(k, v)], rest2)
      | _ => none
    | _ => none

end

/-- `JSON.parse(text)` as a partial function: `some` on syntactically valid
JSON (with the parsed value), `none` where `JSON.parse` throws a
`SyntaxError`. -/
def jsonParse (s : String) : Option Json :=
  match parseValue (2 * s.length + 8) s.data with
  | some (v, rem) => if skipWs rem = [] then some v else none
  | none => none

end JobMatcher

namespace JobMatcher

/-! ### Untyped JavaScript request-body values

`/api/match-jobs` destructures `userProfile` and `userAnswers` out of the
parsed JSON body without validating their shapes, so they are modelled as an
untyped value.  Numbers are modelled as integers; the repository never
branches on fractional values. -/

inductive JsValue where
  | undefinedV : JsValue
  | nullV : JsValue
  | boolV : Bool → JsValue
  | numV : Int → JsValue
  | strV : String → JsValue
  | arrV : List JsValue → JsValue
  | objV : List (String × JsValue) → JsValue
deriving Repr

/-- JavaScript truthiness of a value. -/
def jsTruthyV : JsValue → Bool
  | .undefinedV => false
  | .nullV => false
  | .boolV b => b
  | .numV n => n != 0
  | .strV s => s != ""
  | .arrV _ => true
  | .objV _ => true

/-- JavaScript truthiness of an optional string (used for
`process.env.GEMINI_API_KEY` and `req.body.resumeText`): absent and the
empty string are falsy. -/
def jsTruthyOptStr : Option String → Bool
  | none => false
  | some s => s != ""

mutual

/-- JavaScript string coercion as performed by template-literal interpolation
(`${answer}`): strings as-is, `String(...)` of primitives, arrays joined with
commas (with `null`/`undefined` elements becoming empty), plain objects as
`[object Object]`. -/
def jsToDisplayString : JsValue → String
  | .undefinedV => "undefined"
  | .nullV => "null"
  | .boolV true => "true"
  | .boolV false => "false"
  | .numV n => toString n
  | .strV s => s
  | .arrV xs => arrJoin xs
  | .objV _ => "[object Object]"

/-- `Array.prototype.join(',')` over coerced elements. -/
def arrJoin : List JsValue → String
  | [] => ""
  | v :: vs =>
    let s :=
      match v with
      | .undefinedV => ""
      | .nullV => ""
      | w => jsToDisplayString w
    match vs with
    | [] => s
    | _ => s ++ "," ++ arrJoin vs

end

/-- JSON string quoting as in `JSON.stringify`: escape the quote, the
backslash and control characters. -/
def jsonQuoteChar (c : Char) : String :=
  if c = '"' then "\\\""
  else if c = '\\' then "\\\\"
  else if c = '\n' then "\\n"
  else if c = '\r' then "\\r"
  else if c = '\t' then "\\t"
  else if c = Char.ofNat 8 then "\\b"
  else if c = Char.ofNat 12 then "\\f"
  else if c.toNat < 0x10 then "\\u000" ++ String.mk [Char.ofNat (if c.toNat < 10 then '0'.toNat + c.toNat else 'a'.toNat + c.toNat - 10)]
  else if c.toNat < 0x20 then "\\u001" ++ String.mk [Char.ofNat (if c.toNat - 16 < 10 then '0'.toNat + (c.toNat - 16) else 'a'.toNat + (c.toNat - 16) - 10)]
  else String.mk [c]

/-- Quote a string as a JSON string literal. -/
def jsonQuote (s : String) : String :=
  "\"" ++ String.join (s.data.map jsonQuoteChar) ++ "\""

/-- Two-space indentation at nesting depth `d` (the `null, 2` arguments of
`JSON.stringify(userProfile, null, 2)`). -/
def indentOf (d : Nat) : String := String.mk (List.replicate (2 * d) ' ')

mutual

/-- `JSON.stringify(v, null, 2)` at depth `d`: `none` models the JS result
`undefined` (top-level `undefined` input); object members whose value
stringifies to `undefined` are skipped; array elements that do so become
`null`. -/
def jsonStringifyAt : Nat → JsValue → Option String
  | _, .undefinedV => none
  | _, .nullV => some "null"
  | _, .boolV b => some (if b then "true" else "false")
  | _, .numV n => some (toString n)
  | _, .strV s => some (jsonQuote s)
  | _, .arrV [] => some "[]"
  | d, .arrV (x :: xs) =>
    some ("[\n" ++ String.intercalate ",\n" (stringifyArrItems (d + 1) (x :: xs)) ++
      "\n" ++ indentOf d ++ "]")
  | d, .objV kvs =>
    match stringifyObjItems (d + 1) kvs with
    | [] => some "\x7b\x7d"
    | items =>
      some ("\x7b\n" ++ String.intercalate ",\n" items ++ "\n" ++ indentOf d ++ "\x7d")

/-- Indented, stringified array elements. -/
def stringifyArrItems : Nat → List JsValue → List String
  | _, [] => []
  | d, v :: vs =>
    (indentOf d ++ (jsonStringifyAt d v).getD "null") :: stringifyArrItems d vs

/-- Indented, stringified object members, skipping `undefined`-valued ones. -/
def stringifyObjItems : Nat → List (String × JsValue) → List String
  | _, [] => []
  | d, (k, v) :: rest =>
    match jsonStringifyAt d v with
    | none => stringifyObjItems d rest
    | some s => (indentOf d ++ jsonQuote k ++ ": " ++ s) :: stringifyObjItems d rest

end

/-- The profile as interpolated into the job-matching template:
`${JSON.stringify(userProfile, null, 2)}`, where a JS `undefined` result
interpolates as the text `undefined`. -/
def stringifyProfile (v : JsValue) : String :=
  (jsonStringifyAt 0 v).getD "undefined"

end JobMatcher

namespace JobMatcher

/-- Resume-analysis template, part before the interpolated resume text. -/
def analyzePromptHead : String :=
  "You are an expert career counselor and resume analyst. Your task is to thoroughly analyze the provided resume and extract COMPREHENSIVE information.\n" ++
  "\nRESUME TEXT:\n"

/-- Resume-analysis template, part after the interpolated resume text. -/
def analyzePromptTail : String :=
  "\n\nCRITICAL INSTRUCTIONS:\n1. Extract EVERY skill mentioned in the resume - be exhaustive and include technical skills, soft skills, tools, languages, methodologies, certifications, and any other competencies mentioned\n" ++
  "2. Provide a DETAILED experience summary covering the full arc of their career - include progression, key achievements, and scope of responsibility\n" ++
  "3. Extract ALL education mentioned - degrees, certifications, relevant coursework, and continuous learning\n" ++
  "4. Identify their career level (entry-level, mid-level, senior, manager, executive)\n5. Generate exactly 5 SPECIFIC, CONVERSATIONAL questions designed to understand their career aspirations and match them with the RIGHT opportunities\n" ++
  "\nGenerate questions that are:\n- Natural and conversational (like a real person talking)\n" ++
  "- Specific to their background and experience level\n- Designed to uncover career direction (pivot vs. continuation vs. advancement)\n" ++
  "- Focused on preferences, values, and constraints\n- Never generic or robotic\n\nFormat response as ONLY valid JSON (no markdown, no extra text):\n" ++
  "\x7b\n  \"analysis\": \x7b\n    \"name\": \"Full name (or \x27Not specified\x27)\",\n    \"currentRole\": \"Most recent job title and company\",\n" ++
  "    \"careerLevel\": \"entry-level|mid-level|senior|manager|executive\",\n    \"skills\": [\"skill1\", \"skill2\", \"skill3\", \"skill4\", \"skill5\", ... list ALL skills comprehensively],\n" ++
  "    \"experience\": \"Write 3-4 sentences providing a comprehensive overview of their entire career journey, key achievements, and progression. Include scope of work, industries, and any unique expertise.\",\n" ++
  "    \"education\": \"List all degrees, certifications, and relevant educational achievements. Include institution and year if available.\"\n" ++
  "  \x7d,\n  \"questions\": [\n    \"Question 1 - About career direction/pivot (make it specific to their background)\",\n" ++
  "    \"Question 2 - About role preferences (leadership vs individual contributor, or other role-specific preference)\",\n" ++
  "    \"Question 3 - About work environment (remote, location, company size/type)\",\n    \"Question 4 - About industry or domain preferences\",\n" ++
  "    \"Question 5 - About values/priorities (what matters most in next role - growth, stability, mission, compensation, work-life balance, etc.)\"\n" ++
  "  ]\n\x7d\n\nRemember: The questions should feel natural and tailored to their specific background, not generic templates."

/-- Job-matching template, part before the stringified profile. -/
def matchPromptHead : String :=
  "You are an expert career matching AI. Based on the candidate\x27s profile and their answers about career preferences, generate personalized job recommendations.\n" ++
  "\nCANDIDATE PROFILE:\n"

/-- Job-matching template, between the profile and the numbered answers. -/
def matchPromptMid : String :=
  "\n\nCANDIDATE\x27S ANSWERS TO CAREER QUESTIONS:\n"

/-- Job-matching template, part after the numbered answers. -/
def matchPromptTail : String :=
  "\n\nYour task:\n1. Analyze the candidate\x27s skills, experience, and career goals based on their answers\n" ++
  "2. Identify their career direction (continuation, pivot, advancement)\n3. Determine their ideal role characteristics, company environment, and location preferences\n" ++
  "4. Generate 5-8 realistic, personalized job position recommendations with:\n   - Job title that would be a good fit\n" ++
  "   - Type of company/industry\n   - Key responsibilities that leverage their strengths\n   - Required vs. nice-to-have qualifications (mapped to their profile)\n" ++
  "   - Estimated salary range (based on their experience level)\n   - Why this role is a good fit for them based on their answers\n" ++
  "   - Whether this represents a continuation, pivot, or advancement\n\nFormat as ONLY valid JSON (no markdown, no extra text):\n" ++
  "\x7b\n  \"careerAnalysis\": \x7b\n    \"detectedDirection\": \"continuation|pivot|advancement\",\n" ++
  "    \"careerGoals\": \"Brief summary of what they\x27re looking for based on answers\",\n    \"keyStrengths\": [\"strength1\", \"strength2\", \"strength3\"],\n" ++
  "    \"matchCriteria\": \x7b\n      \"roleType\": \"description of ideal roles\",\n      \"industryPreferences\": [\"industry1\", \"industry2\"],\n" ++
  "      \"workEnvironment\": \"description of preferred work environment based on answers\",\n" ++
  "      \"locationPreferences\": \"description of location preferences based on answers\"\n    \x7d\n" ++
  "  \x7d,\n  \"jobMatches\": [\n    \x7b\n      \"id\": 1,\n      \"jobTitle\": \"Specific job title\",\n" ++
  "      \"company\": \"Company type/example\",\n      \"industry\": \"Industry\",\n      \"roleType\": \"continuation|pivot|advancement\",\n" ++
  "      \"keyResponsibilities\": [\"responsibility1\", \"responsibility2\", \"responsibility3\"],\n" ++
  "      \"requiredQualifications\": [\"qual1\", \"qual2\"],\n      \"niceToHave\": [\"nice1\", \"nice2\"],\n" ++
  "      \"salaryRange\": \"$XXX,000-$XXX,000\",\n      \"workSetup\": \"remote|hybrid|in-person\",\n" ++
  "      \"whyGoodFit\": \"Explanation of why this role matches their profile and answers\",\n" ++
  "      \"growthOpportunity\": \"What they could learn/achieve in this role\"\n    \x7d,\n    ... (repeat for 5-8 positions)\n" ++
  "  ],\n  \"nextSteps\": [\n    \"Action 1 to take next\",\n    \"Action 2 to prepare\",\n    \"Action 3 for job search\"\n" ++
  "  ]\n\x7d\n\nMake recommendations realistic and thoughtful - not generic. Reference specific skills and experiences from their profile."

end JobMatcher

namespace JobMatcher

/-! ### Prompt builders -/

/-- The resume-analysis prompt (`src/server.js` lines 185–223) with the
resume text interpolated. -/
def buildAnalyzePrompt (resumeText : String) : String :=
  analyzePromptHead ++ resumeText ++ analyzePromptTail

/-- `userAnswers.map((answer, index) => ...)` — map with the element index,
threading the start index. -/
def mapIdxFrom (f : Nat → JsValue → String) : Nat → List JsValue → List String
  | _, [] => []
  | i, a :: as => f i a :: mapIdxFrom f (i + 1) as

/-- One rendered answer line: `` Q${index + 1}: ${answer} ``. -/
def renderAnswerLine (index : Nat) (answer : JsValue) : String :=
  "Q" ++ toString (index + 1) ++ ": " ++ jsToDisplayString answer

/-- `userAnswers.map((answer, index) => ...).join('\n')` as evaluated by the
handler: on an array it renders the numbered lines; on any non-array value
property lookup of `.map` yields `undefined` and the call throws a
`TypeError` (modelled as `Except.error` with the engine's message). -/
def jsMapAnswers : JsValue → Except String (List String)
  | .arrV xs => .ok (mapIdxFrom renderAnswerLine 0 xs)
  | _ => .error "userAnswers.map is not a function"

/-- The job-matching prompt (`src/server.js` lines 283–341) with the
stringified profile and the joined answer lines interpolated. -/
def buildMatchPrompt (userProfile : JsValue) (answerLines : List String) : String :=
  matchPromptHead ++ stringifyProfile userProfile ++ matchPromptMid ++
    String.intercalate "\n" answerLines ++ matchPromptTail

/-! ### Route handlers (`src/server.js` lines 141–252 and 258–370)

Each handler is a total function of the request, the configured API key
(`process.env.GEMINI_API_KEY`), the external extraction libraries and the
LLM provider (a function from prompt to completion text, since
`model.generateContent` is awaited for a single completion).  The `Outcome`
records the HTTP response together with observables the claims are about:
whether extraction was attempted, whether the provider was called, and with
which prompt. -/

structure Outcome where
  /-- HTTP status code of the response. -/
  status : Nat
  /-- `error` field of a JSON error body. -/
  errorField : Option String := none
  /-- `message` field of a JSON error body. -/
  messageField : Option String := none
  /-- `details` field of a JSON error body (raw completion text on parse
  failure). -/
  detailsField : Option String := none
  /-- Parsed JSON body sent on success. -/
  okBody : Option Json := none
  /-- Message of an `Error` passed to `next(err)` by middleware (multer), to
  be rendered by the framework's default error handler. -/
  middlewareError : Option String := none
  /-- Whether `extractTextFromFile` was invoked. -/
  extractionAttempted : Bool := false
  /-- Whether `model.generateContent` was invoked. -/
  calledLLM : Bool := false
  /-- The prompt sent to the provider, when it was called. -/
  llmPrompt : Option String := none
deriving Repr

/-- Tail of the `/api/analyze-resume` handler once the resume text has been
determined: reject blank text with 400; reject a missing API key with 500;
otherwise call the provider and parse its completion. -/
def analyzeAfterText (apiKey : Option String) (llm : String → String)
    (resumeText : String) (extracted : Bool) : Outcome :=
  if resumeText = "" ∨ jsTrim resumeText = "" then
      { status := 400, errorField := some "Resume text or file is required",
        messageField := some "Please provide either a resume file (PDF, DOCX, TXT) or resume text in the request body",
        extractionAttempted := extracted }
    else if ¬ jsTruthyOptStr apiKey then
      { status := 500,
        errorField := some "GEMINI_API_KEY not configured in .env file",
        extractionAttempted := extracted }
    else
      let prompt := buildAnalyzePrompt resumeText
      let responseText := llm prompt
      match jsonParse responseText with
      | none =>
        { status := 500, errorField := some "Failed to parse AI response",
          detailsField := some responseText, extractionAttempted := extracted,
          calledLLM := true, llmPrompt := some prompt }
      | some v =>
        { status := 200, okBody := some v, extractionAttempted := extracted,
          calledLLM := true, llmPrompt := some prompt }

/-- The `/api/analyze-resume` handler body (after the multer middleware):
extract text from the file if present, otherwise take a truthy
`req.body.resumeText`, then continue with `analyzeAfterText`. -/
def analyzeHandler (pdfLib docxLib : List Nat → Except String String)
    (apiKey : Option String) (llm : String → String)
    (file : Option RawUpload) (bodyResumeText : Option String) : Outcome :=
  match file with
  | some f =>
    match extractTextFromFile pdfLib docxLib f with
    | .error m =>
      { status := 400, errorField := some "Failed to process uploaded file",
        messageField := some m, extractionAttempted := true }
    | .ok t => analyzeAfterText apiKey llm t true
  | none =>
    -- `else if (req.body.resumeText) resumeText = req.body.resumeText`
    -- (truthiness: a missing or empty field leaves `resumeText` as `''`)
    let rt := match bodyResumeText with
      | some s => if s != "" then s else ""
      | none => ""
    analyzeAfterText apiKey llm rt false

/-- The `/api/analyze-resume` route including the multer middleware
(`upload.single('file')`): a file failing the `fileFilter` or exceeding the
size limit makes multer call `next(err)` before the handler runs; with no
error-handling middleware registered, Express's default handler responds
with `err.status || err.statusCode || 500`, and the filter's plain `Error`
carries neither, hence HTTP 500 (modelled platform semantics). -/
def analyzeRoute (pdfLib docxLib : List Nat → Except String String)
    (apiKey : Option String) (llm : String → String)
    (file : Option RawUpload) (bodyResumeText : Option String) : Outcome :=
  match file with
  | some f =>
    if ¬ multerAccepts f.originalname then
      { status := 500, middlewareError := some invalidFileTypeMsg }
    else if f.buffer.length > maxFileSize then
      { status := 500, middlewareError := some "File too large" }
    else analyzeHandler pdfLib docxLib apiKey llm (some f) bodyResumeText
  | none => analyzeHandler pdfLib docxLib apiKey llm none bodyResumeText

/-- The `/api/match-jobs` handler: reject a falsy `userProfile` or
`userAnswers` with 400; reject a missing API key with 500; render the
prompt (where `userAnswers.map` throws on a non-array, landing in the outer
`catch` as a 500 `Failed to match jobs`); call the provider and parse its
completion. -/
def matchJobs (apiKey : Option String) (llm : String → String)
    (userProfile userAnswers : JsValue) : Outcome :=
  if ¬ jsTruthyV userProfile ∨ ¬ jsTruthyV userAnswers then
    { status := 400, errorField := some "Missing required fields",
      messageField := some "Please provide userProfile and userAnswers" }
  else if ¬ jsTruthyOptStr apiKey then
    { status := 500,
      errorField := some "GEMINI_API_KEY not configured in .env file" }
  else
    match jsMapAnswers userAnswers with
    | .error m =>
      -- the thrown TypeError reaches the handler's outer catch
      { status := 500, errorField := some "Failed to match jobs",
        messageField := some m }
    | .ok answerLines =>
      let prompt := buildMatchPrompt userProfile answerLines
      let responseText := llm prompt
      match jsonParse responseText with
      | none =>
        { status := 500,
          errorField := some "Failed to parse job matching response",
          detailsField := some responseText, calledLLM := true,
          llmPrompt := some prompt }
      | some v =>
        { status := 200, okBody := some v, calledLLM := true,
          llmPrompt := some prompt }

end JobMatcher

namespace JobMatcher

/-! ### Helper lemmas about the handlers -/

theorem jsTrim_empty : jsTrim "" = "" := rfl

theorem ne_empty_of_jsTrim_ne_empty {s : String} (h : jsTrim s ≠ "") : s ≠ "" := by
  intro hs
  exact h (hs ▸ jsTrim_empty)

/-- A file that passes the multer gate reaches the handler unchanged. -/
theorem analyzeRoute_accepted (pdfLib docxLib : List Nat → Except String String)
    (apiKey : Option String) (llm : String → String) (f : RawUpload)
    (bt : Option String) (hacc : multerAccepts f.originalname = true)
    (hsize : f.buffer.length ≤ maxFileSize) :
    analyzeRoute pdfLib docxLib apiKey llm (some f) bt =
      analyzeHandler pdfLib docxLib apiKey llm (some f) bt := by
  simp [analyzeRoute, hacc, Nat.not_lt.mpr hsize]

/-- Successful extraction hands the extracted text to the common tail. -/
theorem analyzeHandler_extract_ok (pdfLib docxLib : List Nat → Except String String)
    (apiKey : Option String) (llm : String → String) (f : RawUpload)
    (bt : Option String) (t : String)
    (hex : extractTextFromFile pdfLib docxLib f = .ok t) :
    analyzeHandler pdfLib docxLib apiKey llm (some f) bt =
      analyzeAfterText apiKey llm t true := by
  simp [analyzeHandler, hex]

/-- With no file, a non-empty body `resumeText` is handed to the common
tail. -/
theorem analyzeHandler_body (pdfLib docxLib : List Nat → Except String String)
    (apiKey : Option String) (llm : String → String) (s : String)
    (hs : s ≠ "") :
    analyzeHandler pdfLib docxLib apiKey llm none (some s) =
      analyzeAfterText apiKey llm s false := by
  simp [analyzeHandler, hs]

/-- Blank text short-circuits to the 400 validation error. -/
theorem analyzeAfterText_blank (apiKey : Option String) (llm : String → String)
    (t : String) (extracted : Bool) (h : jsTrim t = "") :
    analyzeAfterText apiKey llm t extracted =
      { status := 400, errorField := some "Resume text or file is required",
        messageField := some "Please provide either a resume file (PDF, DOCX, TXT) or resume text in the request body",
        extractionAttempted := extracted } := by
  simp [analyzeAfterText, h]

/-- Non-blank text with a falsy API key short-circuits to the configuration
error. -/
theorem analyzeAfterText_noKey (apiKey : Option String) (llm : String → String)
    (t : String) (extracted : Bool) (ht : jsTrim t ≠ "")
    (hk : jsTruthyOptStr apiKey = false) :
    analyzeAfterText apiKey llm t extracted =
      { status := 500,
        errorField := some "GEMINI_API_KEY not configured in .env file",
        extractionAttempted := extracted } := by
  simp [analyzeAfterText, ht, ne_empty_of_jsTrim_ne_empty ht, hk]

/-- Non-blank text with a truthy API key calls the provider on the built
prompt and parses the completion. -/
theorem analyzeAfterText_calls (apiKey : Option String) (llm : String → String)
    (t : String) (extracted : Bool) (ht : jsTrim t ≠ "")
    (hk : jsTruthyOptStr apiKey = true) :
    analyzeAfterText apiKey llm t extracted =
      (match jsonParse (llm (buildAnalyzePrompt t)) with
       | none =>
         { status := 500, errorField := some "Failed to parse AI response",
           detailsField := some (llm (buildAnalyzePrompt t)),
           extractionAttempted := extracted, calledLLM := true,
           llmPrompt := some (buildAnalyzePrompt t) }
       | some v =>
         { status := 200, okBody := some v, extractionAttempted := extracted,
           calledLLM := true, llmPrompt := some (buildAnalyzePrompt t) }) := by
  simp [analyzeAfterText, ht, ne_empty_of_jsTrim_ne_empty ht, hk]

end JobMatcher

namespace JobMatcher

/-- **C2.** For every request to `/api/analyze-resume` (via an accepted file
or via body text) or `/api/match-jobs` that passes input validation, an unset
`GEMINI_API_KEY` yields HTTP 500 with the configuration-error message
`GEMINI_API_KEY not configured in .env file`, and the LLM provider is not
called. -/
theorem missingApiKey_config500
    (pdfLib docxLib : List Nat → Except String String) (llm : String → String) :
    (∀ (f : RawUpload) (bt : Option String) (t : String),
        multerAccepts f.originalname = true →
        f.buffer.length ≤ maxFileSize →
        extractTextFromFile pdfLib docxLib f = .ok t →
        jsTrim t ≠ "" →
        analyzeRoute pdfLib docxLib none llm (some f) bt =
          { status := 500,
            errorField := some "GEMINI_API_KEY not configured in .env file",
            extractionAttempted := true, calledLLM := false }) ∧
    (∀ s : String, jsTrim s ≠ "" →
        analyzeRoute pdfLib docxLib none llm none (some s) =
          { status := 500,
            errorField := some "GEMINI_API_KEY not configured in .env file",
            calledLLM := false }) ∧
    (∀ userProfile userAnswers : JsValue,
        jsTruthyV userProfile = true → jsTruthyV userAnswers = true →
        matchJobs none llm userProfile userAnswers =
          { status := 500,
            errorField := some "GEMINI_API_KEY not configured in .env file",
            calledLLM := false }) := by
  refine ⟨?_, ?_, ?_⟩
  · intro f bt t hacc hsize hex ht
    rw [analyzeRoute_accepted _ _ _ _ _ _ hacc hsize,
      analyzeHandler_extract_ok _ _ _ _ _ _ _ hex,
      analyzeAfterText_noKey none llm t true ht rfl]
  · intro s hs
    rw [show analyzeRoute pdfLib docxLib none llm none (some s) =
        analyzeHandler pdfLib docxLib none llm none (some s) from rfl,
      analyzeHandler_body _ _ _ _ _ (ne_empty_of_jsTrim_ne_empty hs),
      analyzeAfterText_noKey none llm s false hs rfl]
  · intro p a hp ha
    simp [matchJobs, hp, ha, jsTruthyOptStr]

/-- Witness for `missingApiKey_config500` at concrete inputs: a one-byte
`.txt` upload, the body text `resume`, and an empty-object profile with an
empty answers array. -/
theorem missingApiKey_config500_witness :
    (analyzeRoute (fun _ => .error "e") (fun _ => .error "e") none
        (fun _ => "x") (some ⟨"r.txt", [104]⟩) none).status = 500 ∧
    (analyzeRoute (fun _ => .error "e") (fun _ => .error "e") none
        (fun _ => "x") none (some "resume")).errorField =
      some "GEMINI_API_KEY not configured in .env file" ∧
    (matchJobs none (fun _ => "x") (.objV []) (.arrV [])).calledLLM = false := by
  have h := missingApiKey_config500 (fun _ => .error "e") (fun _ => .error "e")
    (fun _ => "x")
  refine ⟨?_, ?_, ?_⟩
  · rw [h.1 ⟨"r.txt", [104]⟩ none "h" (by decide) (by decide) (by rfl) (by decide)]
  · rw [h.2.1 "resume" (by decide)]
  · rw [h.2.2 (.objV []) (.arrV []) rfl rfl]

end JobMatcher

namespace JobMatcher

/-- **C5.** For every `/api/analyze-resume` request, resume text (from file
extraction or from the body field) that is empty or whitespace-only after
trimming is rejected with HTTP 400 and the error
`Resume text or file is required`, and the LLM is not called (note
`calledLLM := false` in the full response records). -/
theorem blankResume_400 (pdfLib docxLib : List Nat → Except String String)
    (apiKey : Option String) (llm : String → String) :
    (∀ (f : RawUpload) (bt : Option String) (t : String),
        multerAccepts f.originalname = true →
        f.buffer.length ≤ maxFileSize →
        extractTextFromFile pdfLib docxLib f = .ok t →
        jsTrim t = "" →
        analyzeRoute pdfLib docxLib apiKey llm (some f) bt =
          { status := 400, errorField := some "Resume text or file is required",
            messageField := some "Please provide either a resume file (PDF, DOCX, TXT) or resume text in the request body",
            extractionAttempted := true, calledLLM := false }) ∧
    (∀ s : String, jsTrim s = "" →
        analyzeRoute pdfLib docxLib apiKey llm none (some s) =
          { status := 400, errorField := some "Resume text or file is required",
            messageField := some "Please provide either a resume file (PDF, DOCX, TXT) or resume text in the request body",
            calledLLM := false }) := by
  constructor
  · intro f bt t hacc hsize hex ht
    rw [analyzeRoute_accepted _ _ _ _ _ _ hacc hsize,
      analyzeHandler_extract_ok _ _ _ _ _ _ _ hex,
      analyzeAfterText_blank _ _ _ _ ht]
  · intro s hs
    by_cases hempty : s = ""
    · subst hempty
      rw [show analyzeRoute pdfLib docxLib apiKey llm none (some "") =
          analyzeAfterText apiKey llm "" false from rfl,
        analyzeAfterText_blank _ _ _ _ jsTrim_empty]
    · rw [show analyzeRoute pdfLib docxLib apiKey llm none (some s) =
          analyzeHandler pdfLib docxLib apiKey llm none (some s) from rfl,
        analyzeHandler_body _ _ _ _ _ hempty,
        analyzeAfterText_blank _ _ _ _ hs]

/-- Witness for `blankResume_400`: a `.txt` upload containing one space, and
the body text `" "`. -/
theorem blankResume_400_witness :
    (analyzeRoute (fun _ => .error "e") (fun _ => .error "e") (some "k")
        (fun _ => "x") (some ⟨"r.txt", [32]⟩) none).status = 400 ∧
    (analyzeRoute (fun _ => .error "e") (fun _ => .error "e") (some "k")
        (fun _ => "x") none (some " ")).errorField =
      some "Resume text or file is required" := by
  have h := blankResume_400 (fun _ => .error "e") (fun _ => .error "e")
    (some "k") (fun _ => "x")
  constructor
  · rw [h.1 ⟨"r.txt", [32]⟩ none " " (by decide) (by decide) (by rfl) (by decide)]
  · rw [h.2 " " (by decide)]

/-- **C4.** For every `/api/analyze-resume` request carrying both a file and
a `resumeText` body field, the response is computed entirely from the file
(the outcome is independent of the body field), and the text interpolated
into the prompt sent to the provider is the file's extracted text. -/
theorem filePrecedence (pdfLib docxLib : List Nat → Except String String)
    (apiKey : Option String) (llm : String → String) (f : RawUpload)
    (bt : Option String) :
    analyzeRoute pdfLib docxLib apiKey llm (some f) bt =
      analyzeRoute pdfLib docxLib apiKey llm (some f) none ∧
    (∀ (t k : String), extractTextFromFile pdfLib docxLib f = .ok t →
        jsTrim t ≠ "" → apiKey = some k → k ≠ "" →
        multerAccepts f.originalname = true →
        f.buffer.length ≤ maxFileSize →
        (analyzeRoute pdfLib docxLib apiKey llm (some f) bt).llmPrompt =
          some (buildAnalyzePrompt t)) := by
  constructor
  · rfl
  · intro t k hex ht hkey hk hacc hsize
    subst hkey
    rw [analyzeRoute_accepted _ _ _ _ _ _ hacc hsize,
      analyzeHandler_extract_ok _ _ _ _ _ _ _ hex,
      analyzeAfterText_calls _ _ _ _ ht (by simp [jsTruthyOptStr, hk])]
    split <;> rfl

/-- Witness for `filePrecedence`: a two-byte `.txt` upload (`hi`) together
with a body field that is ignored. -/
theorem filePrecedence_witness :
    (analyzeRoute (fun _ => .error "e") (fun _ => .error "e") (some "k")
        (fun _ => "x") (some ⟨"r.txt", [104, 105]⟩)
        (some "ignored body text")).llmPrompt =
      some (buildAnalyzePrompt "hi") :=
  (filePrecedence (fun _ => .error "e") (fun _ => .error "e") (some "k")
    (fun _ => "x") ⟨"r.txt", [104, 105]⟩ (some "ignored body text")).2
    "hi" "k" (by rfl) (by decide) rfl (by decide) (by decide) (by decide)

end JobMatcher

namespace JobMatcher

/-- The backtick character, constructed by code point to keep it out of
string literals. -/
def backtickChar : Char := Char.ofNat 96

/-- A completion consisting of a well-formed JSON object wrapped in a
markdown code fence — valid JSON after stripping the fence, invalid as-is. -/
def fencedJsonExample : String :=
  String.mk [backtickChar, backtickChar, backtickChar] ++ "json\n\x7b\x7d\n" ++
    String.mk [backtickChar, backtickChar, backtickChar]

/-- **C1.** For every completion text that is not syntactically valid JSON,
both `/api/analyze-resume` and `/api/match-jobs` respond (the handlers are
total functions, so they do not crash) with HTTP 500 and the raw completion
text in the `details` field; the completion is parsed as-is — in particular
a markdown-fenced object is rejected even though its fence-stripped interior
parses. -/
theorem parseFailure_500_details (s : String) (h : jsonParse s = none)
    (pdfLib docxLib : List Nat → Except String String) (k rt : String)
    (hk : k ≠ "") (hrt : jsTrim rt ≠ "") (userProfile : JsValue)
    (hp : jsTruthyV userProfile = true) (xs : List JsValue) :
    analyzeRoute pdfLib docxLib (some k) (fun _ => s) none (some rt) =
      { status := 500, errorField := some "Failed to parse AI response",
        detailsField := some s, calledLLM := true,
        llmPrompt := some (buildAnalyzePrompt rt) } ∧
    matchJobs (some k) (fun _ => s) userProfile (.arrV xs) =
      { status := 500,
        errorField := some "Failed to parse job matching response",
        detailsField := some s, calledLLM := true,
        llmPrompt := some (buildMatchPrompt userProfile
          (mapIdxFrom renderAnswerLine 0 xs)) } ∧
    jsonParse fencedJsonExample = none ∧
    jsonParse "\x7b\x7d" = some (.objJ []) := by
  refine ⟨?_, ?_, rfl, rfl⟩
  · rw [show analyzeRoute pdfLib docxLib (some k) (fun _ => s) none (some rt) =
        analyzeHandler pdfLib docxLib (some k) (fun _ => s) none (some rt)
        from rfl,
      analyzeHandler_body _ _ _ _ _ (ne_empty_of_jsTrim_ne_empty hrt),
      analyzeAfterText_calls _ _ _ _ hrt (by simp [jsTruthyOptStr, hk])]
    simp [h]
  · have harr : jsTruthyV (.arrV xs) = true := rfl
    simp [matchJobs, hp, harr, jsTruthyOptStr, hk, jsMapAnswers, buildMatchPrompt, h]

/-- Witness for `parseFailure_500_details`: the completion
`Sorry, I cannot help with that` is not JSON; both endpoints surface it in
`details` of a 500 response. -/
theorem parseFailure_500_details_witness :
    (analyzeRoute (fun _ => .error "e") (fun _ => .error "e") (some "k")
        (fun _ => "Sorry, I cannot help with that") none
        (some "resume")).detailsField =
      some "Sorry, I cannot help with that" ∧
    (matchJobs (some "k") (fun _ => "Sorry, I cannot help with that")
        (.objV []) (.arrV [.strV "a"])).status = 500 := by
  have h := parseFailure_500_details "Sorry, I cannot help with that" rfl
    (fun _ => .error "e") (fun _ => .error "e") "k" "resume" (by decide)
    (by decide) (.objV []) rfl [.strV "a"]
  constructor
  · rw [h.1]
  · rw [h.2.1]

/-- **C10.** A `/api/match-jobs` request whose `userProfile` and
`userAnswers` are both truthy but whose `userAnswers` is not an array (with
the API key configured) passes the 400 validation check; the call to
`userAnswers.map` then throws a `TypeError` caught by the handler's outer
catch, yielding HTTP 500 with error `Failed to match jobs` — not a 400
validation error. -/
theorem nonArrayAnswers_500 (llm : String → String) (k : String) (hk : k ≠ "")
    (userProfile userAnswers : JsValue) (hp : jsTruthyV userProfile = true)
    (ha : jsTruthyV userAnswers = true)
    (hna : ∀ xs : List JsValue, userAnswers ≠ .arrV xs) :
    matchJobs (some k) llm userProfile userAnswers =
      { status := 500, errorField := some "Failed to match jobs",
        messageField := some "userAnswers.map is not a function",
        calledLLM := false } ∧
    (matchJobs (some k) llm userProfile userAnswers).status ≠ 400 := by
  have hmap : jsMapAnswers userAnswers =
      .error "userAnswers.map is not a function" := by
    cases userAnswers with
    | arrV xs => exact absurd rfl (hna xs)
    | _ => rfl
  have hout : matchJobs (some k) llm userProfile userAnswers =
      { status := 500, errorField := some "Failed to match jobs",
        messageField := some "userAnswers.map is not a function",
        calledLLM := false } := by
    simp [matchJobs, hp, ha, jsTruthyOptStr, hk, hmap]
  exact ⟨hout, by rw [hout]; decide⟩

/-- Witness for `nonArrayAnswers_500`: `userAnswers` given as the string
`"answer"` (truthy, not an array). -/
theorem nonArrayAnswers_500_witness :
    (matchJobs (some "k") (fun _ => "x") (.objV [])
        (.strV "answer")).errorField = some "Failed to match jobs" ∧
    (matchJobs (some "k") (fun _ => "x") (.objV [])
        (.strV "answer")).status = 500 := by
  have h := nonArrayAnswers_500 (fun _ => "x") "k" (by decide) (.objV [])
    (.strV "answer") rfl (by decide) (fun xs hx => by cases hx)
  exact ⟨by rw [h.1], by rw [h.1]⟩

end JobMatcher

namespace JobMatcher

/-! ### Extension-computation lemmas -/

theorem lastIdxOf_eq_none {c : Char} :
    ∀ {l : List Char}, c ∉ l → lastIdxOf c l = none := by
  intro l h
  induction l with
  | nil => rfl
  | cons x xs ih =>
    have hx : x ≠ c := fun hxc => h (hxc ▸ List.mem_cons_self x xs)
    have hxs : c ∉ xs := fun hm => h (List.mem_cons_of_mem x hm)
    simp [lastIdxOf, ih hxs, hx]

theorem char_toNat_ofNat {n : Nat} (h : n.isValidChar) :
    (Char.ofNat n).toNat = n := by
  rw [Char.ofNat, dif_pos h]
  rfl

theorem toLower_eq_dot_iff (c : Char) : (Char.toLower c = '.') ↔ (c = '.') := by
  unfold Char.toLower
  by_cases h : c.toNat ≥ 65 ∧ c.toNat ≤ 90
  · rw [if_pos h]
    constructor
    · intro hEq
      exfalso
      have hv : (c.toNat + 32).isValidChar := Or.inl (by omega)
      have h46 := congrArg Char.toNat hEq
      rw [char_toNat_ofNat hv] at h46
      have : c.toNat + 32 = 46 := h46
      omega
    · intro hEq
      exfalso
      rw [hEq] at h
      exact absurd h (by decide)
  · rw [if_neg h]

theorem toLower_toLower (c : Char) : c.toLower.toLower = c.toLower := by
  by_cases h : c.toNat ≥ 65 ∧ c.toNat ≤ 90
  · have hv : (c.toNat + 32).isValidChar := Or.inl (by omega)
    have h1 : c.toLower = Char.ofNat (c.toNat + 32) := by
      rw [Char.toLower, if_pos h]
    have h2 : c.toLower.toNat = c.toNat + 32 := by
      rw [h1, char_toNat_ofNat hv]
    conv_lhs => rw [Char.toLower]
    rw [h2, if_neg (by omega)]
  · have h1 : c.toLower = c := by rw [Char.toLower, if_neg h]
    rw [h1]
    exact h1

theorem map_toLower_idem :
    ∀ l : List Char,
      List.map Char.toLower (List.map Char.toLower l) = List.map Char.toLower l := by
  intro l
  induction l with
  | nil => rfl
  | cons x xs ih => simp [toLower_toLower, ih]

theorem lastIdxOf_dot_map_toLower (l : List Char) :
    lastIdxOf '.' (l.map Char.toLower) = lastIdxOf '.' l := by
  induction l with
  | nil => rfl
  | cons x xs ih =>
    by_cases hx : x = '.'
    · simp [lastIdxOf, ih, hx, (toLower_eq_dot_iff x).mpr hx]
    · have hlx : Char.toLower x ≠ '.' := fun hc => hx ((toLower_eq_dot_iff x).mp hc)
      simp [lastIdxOf, ih, hx, hlx]

theorem jsToLower_idem (s : String) : jsToLower (jsToLower s) = jsToLower s := by
  rw [jsToLower, jsToLower]
  congr 1
  exact map_toLower_idem s.data

/-- The extension computation is insensitive to the case of the file name. -/
theorem fileExtOf_toLower (name : String) :
    fileExtOf (jsToLower name) = fileExtOf name := by
  rw [fileExtOf, fileExtOf, jsToLower_idem]
  have : jsLastIndexOf (jsToLower name) '.' = jsLastIndexOf name '.' := by
    rw [jsLastIndexOf, jsLastIndexOf, jsToLower, lastIdxOf_dot_map_toLower]
  rw [this]

/-- **C9.** For every uploaded file whose name contains no `.`, the upload
gate rejects it: `lastIndexOf('.')` is `-1`, so `slice(-1)` keeps at most the
final character of the lowercased name, which can never equal one of the
allowed multi-character extensions. -/
theorem dotlessName_rejected (name : String) (h : '.' ∉ name.data) :
    jsLastIndexOf name '.' = -1 ∧ (fileExtOf name).length ≤ 1 ∧
      multerAccepts name = false := by
  have hneg : jsLastIndexOf name '.' = -1 := by
    rw [jsLastIndexOf, lastIdxOf_eq_none h]
  have hlen : (fileExtOf name).length ≤ 1 := by
    rw [fileExtOf, hneg]
    simp only [jsSliceFrom, String.length]
    rw [if_pos (show (-1 : Int) < 0 by decide)]
    simp only [List.length_drop]
    omega
  refine ⟨hneg, hlen, ?_⟩
  have h1 : fileExtOf name ≠ ".pdf" := fun he => by
    rw [he] at hlen; exact absurd hlen (by decide)
  have h2 : fileExtOf name ≠ ".docx" := fun he => by
    rw [he] at hlen; exact absurd hlen (by decide)
  have h3 : fileExtOf name ≠ ".txt" := fun he => by
    rw [he] at hlen; exact absurd hlen (by decide)
  simp [multerAccepts, allowedTypes, h1, h2, h3]

/-- Witness for `dotlessName_rejected`: the dot-free name `README`. -/
theorem dotlessName_rejected_witness :
    jsLastIndexOf "README" '.' = -1 ∧ (fileExtOf "README").length ≤ 1 ∧
      multerAccepts "README" = false :=
  dotlessName_rejected "README" (by decide)

end JobMatcher

namespace JobMatcher

/-- **C6 (amended).** The upload gate derives the extension
case-insensitively from the last `.` of the filename and accepts exactly the
extensions `.pdf`, `.docx`, `.txt`; any other file is rejected with the
`Invalid file type` error before extraction is attempted — but, since the
filter's plain `Error` carries no status and the app registers no
error-handling middleware, the framework's default handler answers HTTP 500,
not 400. -/
theorem invalidExtension_rejected (pdfLib docxLib : List Nat → Except String String)
    (apiKey : Option String) (llm : String → String) (bt : Option String)
    (f : RawUpload) :
    (multerAccepts f.originalname = true ↔ fileExtOf f.originalname ∈ allowedTypes) ∧
    fileExtOf (jsToLower f.originalname) = fileExtOf f.originalname ∧
    (fileExtOf f.originalname ∉ allowedTypes →
      analyzeRoute pdfLib docxLib apiKey llm (some f) bt =
        { status := 500, middlewareError := some invalidFileTypeMsg,
          extractionAttempted := false, calledLLM := false }) := by
  have hiff : multerAccepts f.originalname = true ↔
      fileExtOf f.originalname ∈ allowedTypes := by
    rw [multerAccepts]
    exact List.elem_iff
  refine ⟨hiff, fileExtOf_toLower f.originalname, ?_⟩
  intro hnot
  have hacc : multerAccepts f.originalname = false := by
    rcases Bool.eq_false_or_eq_true (multerAccepts f.originalname) with h | h
    · exact absurd (hiff.mp h) hnot
    · exact h
  simp [analyzeRoute, hacc]

/-- Counterexample to **C6** as stated: an `.xlsx` upload is rejected before
extraction with the `Invalid file type` error, but the HTTP status is 500,
not the claimed 400. -/
theorem invalidExtension_rejected_counterexample :
    (analyzeRoute (fun _ => .error "e") (fun _ => .error "e") (some "k")
        (fun _ => "x") (some ⟨"sheet.xlsx", [1, 2]⟩) none).status = 500 ∧
    ¬ (analyzeRoute (fun _ => .error "e") (fun _ => .error "e") (some "k")
        (fun _ => "x") (some ⟨"sheet.xlsx", [1, 2]⟩) none).status = 400 ∧
    (analyzeRoute (fun _ => .error "e") (fun _ => .error "e") (some "k")
        (fun _ => "x") (some ⟨"sheet.xlsx", [1, 2]⟩) none).middlewareError =
      some invalidFileTypeMsg ∧
    (analyzeRoute (fun _ => .error "e") (fun _ => .error "e") (some "k")
        (fun _ => "x") (some ⟨"sheet.xlsx", [1, 2]⟩) none).extractionAttempted =
      false := by
  refine ⟨rfl, by decide, rfl, rfl⟩

/-- Witness for `invalidExtension_rejected` at the concrete upload
`data.xlsx`. -/
theorem invalidExtension_rejected_witness :
    analyzeRoute (fun _ => .error "e") (fun _ => .error "e") (some "k")
        (fun _ => "x") (some ⟨"data.xlsx", [7]⟩) none =
      { status := 500, middlewareError := some invalidFileTypeMsg,
        extractionAttempted := false, calledLLM := false } :=
  (invalidExtension_rejected (fun _ => .error "e") (fun _ => .error "e")
    (some "k") (fun _ => "x") none ⟨"data.xlsx", [7]⟩).2.2 (by decide)

end JobMatcher

namespace JobMatcher

/-! ### CORS pattern lemmas -/

theorem string_eq_of_data_eq : ∀ {s t : String}, s.data = t.data → s = t
  | ⟨_⟩, ⟨_⟩, rfl => rfl

theorem takeWhile_append_cons {p : Char → Bool} (l : List Char) (c : Char)
    (m : List Char) (hl : ∀ a ∈ l, p a = true) (hc : p c = false) :
    (l ++ c :: m).takeWhile p = l ∧ (l ++ c :: m).dropWhile p = c :: m := by
  induction l with
  | nil => simp [List.takeWhile_cons, List.dropWhile_cons, hc]
  | cons x xs ih =>
    have hx : p x = true := hl x (List.mem_cons_self x xs)
    have ih2 := ih (fun a ha => hl a (List.mem_cons_of_mem x ha))
    simp [List.takeWhile_cons, List.dropWhile_cons, hx, ih2.1, ih2.2]

/-- The greedy regex matcher agrees with the declarative "HTTPS subdomain of
`base`" characterisation (for a tail that begins with a literal dot, a
character outside the label class, so the greedy run is exact). -/
theorem matchHttpsLabel_iff (base o : String) :
    matchHttpsLabel ('.' :: base.data) o = true ↔ httpsSubdomainOf base o := by
  constructor
  · intro h
    simp only [matchHttpsLabel, Bool.and_eq_true, beq_iff_eq,
      Bool.not_eq_true', List.isEmpty_eq_false] at h
    obtain ⟨h8, hne, hdrop⟩ := h
    set L := (o.data.drop 8).takeWhile isSubChar with hLdef
    refine ⟨String.mk L, ?_, ?_, ?_⟩
    · intro hmk
      exact hne (congrArg String.data hmk)
    · exact List.all_eq_true.mpr fun a ha => List.mem_takeWhile_imp ha
    · apply string_eq_of_data_eq
      have hsplit : o.data = httpsScheme ++ (L ++ '.' :: base.data) := by
        conv_lhs => rw [← List.take_append_drop 8 o.data]
        rw [h8]
        congr 1
        rw [hLdef]
        conv_lhs =>
          rw [← List.takeWhile_append_dropWhile (p := isSubChar)
            (l := o.data.drop 8)]
        rw [hdrop]
      rw [hsplit]
      simp only [String.data_append, List.append_assoc]
      rfl
  · rintro ⟨label, hne, hall, rfl⟩
    have hne2 : label.data ≠ [] := fun hd =>
      hne (string_eq_of_data_eq (t := "") hd)
    have hdata : ("https://" ++ label ++ "." ++ base).data =
        httpsScheme ++ (label.data ++ '.' :: base.data) := by
      simp only [String.data_append, List.append_assoc]
      rfl
    have hlen : httpsScheme.length = 8 := by decide
    have htw := takeWhile_append_cons (p := isSubChar) label.data '.' base.data
      (fun a ha => List.all_eq_true.mp hall a ha) (by decide)
    simp only [matchHttpsLabel, hdata, List.take_left' hlen,
      List.drop_left' hlen, htw.1, htw.2, List.isEmpty_eq_false]
    simp [hne2]

end JobMatcher

namespace JobMatcher

/-- **C3.** The CORS origin callback permits a request exactly when the
`Origin` is one of the four allow-listed strings, an HTTPS subdomain of
`lovable.dev`, or an HTTPS subdomain of `lovableproject.com`; a request with
no `Origin` header is always permitted; in particular
`https://foo.lovable.dev` is permitted and `https://evil.com` is not. -/
theorem corsOriginPolicy :
    corsOriginAllowed none = true ∧
    (∀ o : String,
      corsOriginAllowed (some o) = true ↔
        (o ∈ corsAllowedOrigins ∨ httpsSubdomainOf "lovable.dev" o ∨
          httpsSubdomainOf "lovableproject.com" o)) ∧
    corsOriginAllowed (some "https://foo.lovable.dev") = true ∧
    corsOriginAllowed (some "https://evil.com") = false := by
  refine ⟨rfl, ?_, by decide, by decide⟩
  intro o
  have hmem : corsAllowedOrigins.contains o = true ↔ o ∈ corsAllowedOrigins :=
    List.elem_iff
  have hsub : isLovableSubdomain o = true ↔ httpsSubdomainOf "lovable.dev" o :=
    matchHttpsLabel_iff "lovable.dev" o
  have hproj : isLovableProject o = true ↔
      httpsSubdomainOf "lovableproject.com" o :=
    matchHttpsLabel_iff "lovableproject.com" o
  simp only [corsOriginAllowed, Bool.or_eq_true]
  rw [hmem, hsub, hproj, or_assoc]

end JobMatcher


namespace JobMatcher

set_option linter.unreachableTactic false in
set_option linter.unusedTactic false in
set_option maxHeartbeats 1600000 in
set_option maxRecDepth 8000 in
/-- On any buffer that is not valid UTF-8, the lenient decode contains at
least one U+FFFD replacement character. -/
theorem repl_mem_utf8Dec_of_invalid :
    ∀ bs : List Nat, validUtf8 bs = false → repl ∈ utf8Dec bs := by
  have main : ∀ (n : Nat) (bs : List Nat), bs.length ≤ n →
      validUtf8 bs = false → repl ∈ utf8Dec bs := by
    intro n
    induction n with
    | zero =>
      intro bs hl h
      have hnil : bs = [] := List.eq_nil_of_length_eq_zero (Nat.le_zero.mp hl)
      subst hnil
      exact absurd h (by decide)
    | succ n ih =>
      intro bs hl h
      rcases bs with _ | ⟨b, _ | ⟨b2, _ | ⟨b3, _ | ⟨b4, rest⟩⟩⟩⟩
      · exact absurd h (by decide)
      · rw [validUtf8.eq_2] at h
        rw [utf8Dec.eq_2]
        split_ifs at h ⊢ <;>
          first
          | exact List.mem_cons_self _ _
          | exact absurd h (by decide)
          | exact List.mem_cons_of_mem _ (ih _ (by
              simp only [List.length_cons, List.length_nil] at hl ⊢; omega) h)
      · rw [validUtf8.eq_3] at h
        rw [utf8Dec.eq_3]
        split_ifs at h ⊢ <;>
          first
          | exact List.mem_cons_self _ _
          | exact absurd h (by decide)
          | exact List.mem_cons_of_mem _ (ih _ (by
              simp only [List.length_cons, List.length_nil] at hl ⊢; omega) h)
      · rw [validUtf8.eq_4] at h
        rw [utf8Dec.eq_4]
        split_ifs at h ⊢ <;>
          first
          | exact List.mem_cons_self _ _
          | exact absurd h (by decide)
          | exact List.mem_cons_of_mem _ (ih _ (by
              simp only [List.length_cons, List.length_nil] at hl ⊢; omega) h)
      · rw [validUtf8.eq_5] at h
        rw [utf8Dec.eq_5]
        split_ifs at h ⊢ <;>
          first
          | exact List.mem_cons_self _ _
          | exact absurd h (by decide)
          | exact List.mem_cons_of_mem _ (ih _ (by
              simp only [List.length_cons, List.length_nil] at hl ⊢; omega) h)
  exact fun bs => main bs.length bs (Nat.le_refl _)

/-- Counterexample to **C7** as stated: the one-byte buffer `0xFF` is
malformed UTF-8, yet `extractTextFromTXT` does not fail — Node's
`Buffer.toString('utf-8')` never throws, so the catch that would produce a
`Failed to extract text from TXT:` error is unreachable and extraction
returns the replacement character instead. -/
theorem txtExtraction_counterexample :
    validUtf8 [0xFF] = false ∧
    extractTextFromTXT [0xFF] = .ok "�" ∧
    utf8Dec [0xFF] = [repl] := by
  refine ⟨by decide, rfl, by decide⟩

/-- **C7 (amended).** `.txt` extraction decodes the buffer as UTF-8
leniently: on every buffer containing malformed byte sequences it still
succeeds (never an ExtractionError), returning the decode in which the
malformed parts have been replaced by U+FFFD — which therefore occurs in the
result. -/
theorem txtExtraction_lenient (buffer : List Nat)
    (h : validUtf8 buffer = false) :
    extractTextFromTXT buffer = .ok (String.mk (utf8Dec buffer)) ∧
    repl ∈ utf8Dec buffer :=
  ⟨rfl, repl_mem_utf8Dec_of_invalid buffer h⟩

/-- Witness for `txtExtraction_lenient`: `h` followed by a truncated
two-byte sequence. -/
theorem txtExtraction_lenient_witness :
    extractTextFromTXT [104, 0xC3] = .ok (String.mk (utf8Dec [104, 0xC3])) ∧
    repl ∈ utf8Dec [104, 0xC3] :=
  txtExtraction_lenient [104, 0xC3] (by decide)

end JobMatcher

namespace JobMatcher

theorem mapIdxFrom_length (f : Nat → JsValue → String) :
    ∀ (i : Nat) (xs : List JsValue), (mapIdxFrom f i xs).length = xs.length := by
  intro i xs
  induction xs generalizing i with
  | nil => rfl
  | cons x xs ih => simp [mapIdxFrom, ih]

theorem numberedLine_get :
    ∀ (answers : List String) (start i : Nat) (h : i < answers.length)
      (h2 : i < (mapIdxFrom renderAnswerLine start
        (answers.map JsValue.strV)).length),
      (mapIdxFrom renderAnswerLine start (answers.map JsValue.strV)).get ⟨i, h2⟩ =
        "Q" ++ toString (start + i + 1) ++ ": " ++ answers.get ⟨i, h⟩ := by
  intro answers
  induction answers with
  | nil => intro start i h h2; exact absurd h (by simp)
  | cons a as ih =>
    intro start i h h2
    cases i with
    | zero => rfl
    | succ j =>
      have hj : j < as.length := by
        simp only [List.length_cons] at h
        omega
      have hj2 : j < (mapIdxFrom renderAnswerLine (start + 1)
          (as.map JsValue.strV)).length := by
        rw [mapIdxFrom_length, List.length_map]
        exact hj
      have step : (mapIdxFrom renderAnswerLine start
            ((a :: as).map JsValue.strV)).get ⟨j + 1, h2⟩ =
          (mapIdxFrom renderAnswerLine (start + 1)
            (as.map JsValue.strV)).get ⟨j, hj2⟩ := rfl
      rw [step, ih (start + 1) j hj hj2]
      have harith : start + 1 + j + 1 = start + (j + 1) + 1 := by omega
      rw [harith]
      rfl

/-- **C8.** For every list of answer strings passed as `userAnswers`, the
job-matching prompt embeds the answers as the lines
`Q1: …`, `Q2: …`, … joined by newlines between the fixed template parts: one
line per answer, in input order, the answer at index `i` labelled `Q(i+1)`. -/
theorem answersNumberedInOrder (answers : List String) (userProfile : JsValue)
    (k : String) (hk : k ≠ "") (hp : jsTruthyV userProfile = true)
    (llm : String → String) :
    jsMapAnswers (.arrV (answers.map JsValue.strV)) =
      .ok (mapIdxFrom renderAnswerLine 0 (answers.map JsValue.strV)) ∧
    (mapIdxFrom renderAnswerLine 0 (answers.map JsValue.strV)).length =
      answers.length ∧
    (∀ (i : Nat) (h : i < answers.length)
        (h2 : i < (mapIdxFrom renderAnswerLine 0
          (answers.map JsValue.strV)).length),
      (mapIdxFrom renderAnswerLine 0 (answers.map JsValue.strV)).get ⟨i, h2⟩ =
        "Q" ++ toString (i + 1) ++ ": " ++ answers.get ⟨i, h⟩) ∧
    (matchJobs (some k) llm userProfile
        (.arrV (answers.map JsValue.strV))).llmPrompt =
      some (matchPromptHead ++ stringifyProfile userProfile ++ matchPromptMid ++
        String.intercalate "\n"
          (mapIdxFrom renderAnswerLine 0 (answers.map JsValue.strV)) ++
        matchPromptTail) := by
  refine ⟨rfl, by rw [mapIdxFrom_length, List.length_map], ?_, ?_⟩
  · intro i h h2
    have hng := numberedLine_get answers 0 i h h2
    rw [Nat.zero_add] at hng
    exact hng
  · have harr : jsTruthyV (.arrV (answers.map JsValue.strV)) = true := rfl
    simp only [matchJobs, hp, harr, Bool.not_eq_true, jsTruthyOptStr,
      bne_iff_ne, ne_eq]
    rw [if_neg (by simp), if_neg (by simp [hk])]
    show (match jsonParse (llm (buildMatchPrompt userProfile
        (mapIdxFrom renderAnswerLine 0 (answers.map JsValue.strV)))) with
      | none => _
      | some _ => _ : Outcome).llmPrompt = _
    cases jsonParse (llm (buildMatchPrompt userProfile
        (mapIdxFrom renderAnswerLine 0 (answers.map JsValue.strV)))) <;> rfl

/-- Witness for `answersNumberedInOrder`: the two answers `alpha`, `beta`
render as `Q1: alpha` and `Q2: beta` inside the prompt. -/
theorem answersNumberedInOrder_witness :
    (mapIdxFrom renderAnswerLine 0 (["alpha", "beta"].map JsValue.strV)).get
        ⟨1, by decide⟩ =
      "Q" ++ toString (1 + 1) ++ ": " ++
        (["alpha", "beta"] : List String).get ⟨1, by decide⟩ ∧
    (matchJobs (some "k") (fun _ => "x") (.objV [])
        (.arrV (["alpha", "beta"].map JsValue.strV))).llmPrompt =
      some (matchPromptHead ++ stringifyProfile (.objV []) ++ matchPromptMid ++
        String.intercalate "\n"
          (mapIdxFrom renderAnswerLine 0 (["alpha", "beta"].map JsValue.strV)) ++
        matchPromptTail) := by
  have h := answersNumberedInOrder ["alpha", "beta"] (.objV []) "k"
    (by decide) rfl (fun _ => "x")
  exact ⟨h.2.2.1 1 (by decide) (by decide), h.2.2.2⟩

end JobMatcher
